import Mathlib

/-
Verification of the W203-canbus instrument-cluster display driver.

The repository ships the interface header `ARDUINO_CODE/ic_display.h`, which
declares the class IC_DISPLAY together with its protocol constants
(SEND_CAN_ID, RECEIVE_CAN_ID, DISPLAY_WIDTH_PX), the page and symbol
enumerations, and the glyph-width table CHAR_WIDTHS.  The table and the
constants are embedded here verbatim from the header.  The bodies of the
member functions (can_fit_body_text, setHeader, setBody, setBodyTel,
initPage, sendBytes, processIcResponse) are not part of the repository
sources; they are modelled from the specification, as marked on each
definition.  Text is modelled as a list of character codes (the C code
works on `const char*`), CAN frames as an identifier plus a byte list.
-/

/-- CAN ID of AGW that communicates to the IC Display (`#define SEND_CAN_ID 0x1A4`). -/
def SEND_CAN_ID : Nat := 0x1A4

/-- CAN ID of IC Display back to AGW (`#define RECEIVE_CAN_ID 0x1D0`). -/
def RECEIVE_CAN_ID : Nat := 0x1D0

/-- Width in pixels of display in the IC (`#define DISPLAY_WIDTH_PX 56`). -/
def DISPLAY_WIDTH_PX : Nat := 56

/-- Glyph width table, transcribed entry for entry from `CHAR_WIDTHS[256]` in
`ARDUINO_CODE/ic_display.h` (lines 152-188).  Entry 126 is the sentinel 99,
marked in the source with the comment that the character crashes the IC. -/
def CHAR_WIDTHS : List Nat := [
  0, 0, 0, 0, 0, 0, 0, 0,
  0, 0, 0, 7, 6, 0, 0, 0,
  0, 6, 6, 6, 7, 7, 3, 2,
  7, 7, 0, 0,10,10, 6, 6,
  6, 3, 4, 6, 6, 6, 6, 2,
  5, 5, 6, 6, 3, 5, 2, 6,
  7, 7, 7, 7, 7, 7, 7, 7,
  7, 7, 3, 4, 5, 6, 5, 6,

  6, 7, 7, 7, 7, 6, 6, 7,
  7, 3, 5, 7, 6, 7, 0, 0,
  7, 7, 7, 7, 7, 7, 7,11,
  7, 7, 7, 4, 6, 4, 3, 6,
  3, 6, 6, 6, 6, 7, 6, 8,
  6, 3, 5, 6, 3, 9, 7, 7,
  6, 6, 6, 6, 5, 7, 7, 9,
  7, 6, 6, 6, 2, 6,99, 0,

  7, 6, 8, 9, 6, 6, 6, 6,
  7, 6, 0, 0, 0, 0, 0, 0,
  0, 0, 0, 0, 0, 0, 0, 0,
  0, 0, 0, 0, 0, 0, 0, 0,
  0, 0, 0, 0, 0, 0, 0, 0,
  0, 0, 0, 0, 0, 0, 0, 0,
  0, 0, 0, 0, 0, 0, 0, 0,
  0, 0, 0, 0, 0, 0, 0, 0,

  0, 0, 0, 0, 0, 0, 0, 0,
  0, 0, 0, 0, 0, 0, 0, 0,
  0, 0, 0, 0, 0, 0, 0, 0,
  0, 0, 0, 0, 0, 0, 0, 0,
  0, 0, 0, 0, 0, 0, 0, 0,
  0, 0, 0, 0, 0, 0, 0, 0,
  0, 0, 0, 0, 0, 0, 0, 0,
  0, 0, 0, 0, 0, 0, 0, 0]

/-- Pixel width of a character code: lookup in CHAR_WIDTHS (codes beyond the
table read as 0; the table itself covers all of 0-255). -/
def widthOf (c : Nat) : Nat := CHAR_WIDTHS.getD c 0

/-- Character code of the glyph whose width-table entry is the sentinel 99:
index 126 of CHAR_WIDTHS. -/
def CRASH_CHAR : Nat := 126

/-- Character codes the display can actually render: those with a genuine
glyph width recorded in the table (nonzero and not the reserved sentinel). -/
def isPrintable (c : Nat) : Bool := widthOf c != 0 && widthOf c != 99

/-- Pixel width of a text: sum of widthOf(c)+1 (one-pixel inter-glyph gap)
over every character c of the text. -/
def textPixelWidth (text : List Nat) : Nat :=
  (text.map (fun c => widthOf c + 1)).sum

/-- Modelled from the spec: the body of `IC_DISPLAY::can_fit_body_text` is
not among the repository sources (only its declaration in ic_display.h is).
Spec 4.1: sum `widthOf(c)+1` (one-pixel inter-glyph gap) over every character
in `text`; compare against the fixed display width (56 px); true iff the sum
does not exceed the width. -/
def can_fit_body_text (text : List Nat) : Bool :=
  textPixelWidth text ≤ DISPLAY_WIDTH_PX

/-- Possible pages to send text to (enum PAGE in ic_display.h). -/
inductive PAGE where
  | AUDIO_PAGE
  | TELEPHONE
  | OTHER
deriving DecidableEq

/-- Numeric code of each page (AUDIO_PAGE = 0x03, TELEPHONE = 0x05, OTHER = 0x00). -/
def PAGE.code : PAGE → Nat
  | .AUDIO_PAGE => 0x03
  | .TELEPHONE => 0x05
  | .OTHER => 0x00

/-- Symbols that can be sent to the IC display (enum IC_SYMBOL). -/
inductive IC_SYMBOL where
  | NONE
  | SKIP_TRACK
  | PREV_TRACK
  | FAST_FWD
  | FAST_REV
  | PLAY
  | REWIND
  | UP_ARROW
  | DOWN_ARROW
deriving DecidableEq

/-- Numeric code of each symbol, from the enum values in ic_display.h. -/
def IC_SYMBOL.code : IC_SYMBOL → Nat
  | .NONE => 0x00
  | .SKIP_TRACK => 0x01
  | .PREV_TRACK => 0x02
  | .FAST_FWD => 0x03
  | .FAST_REV => 0x04
  | .PLAY => 0x05
  | .REWIND => 0x06
  | .UP_ARROW => 0x09
  | .DOWN_ARROW => 0x0A

/-- Bus frame: a numeric identifier and up to 8 data bytes. -/
structure can_frame where
  id : Nat
  data : List Nat
deriving DecidableEq

/-- Modelled from the spec: consecutive frames of the ISO-TP-style scheme of
`IC_DISPLAY::sendBytes` (body not among the repository sources).  Each
consecutive frame carries a 1-byte sequence nibble followed by up to 7
payload bytes (spec 4.3). -/
def consecutiveFrames (seq : Nat) (rest : List Nat) : List can_frame :=
  match rest with
  | [] => []
  | b :: bs =>
    ⟨SEND_CAN_ID, (0x20 + seq) :: (b :: bs).take 7⟩ ::
      consecutiveFrames (seq + 1) ((b :: bs).drop 7)
termination_by rest.length
decreasing_by simp [List.length_drop]; omega

/-- Modelled from the spec: the segmentation of `IC_DISPLAY::sendBytes` (body
not among the repository sources).  The first frame carries a 2-byte header
(frame-type byte and total payload length) plus up to 6 payload bytes; the
remaining bytes go out in consecutive frames of up to 7 bytes each
(spec 4.3).  The pre/post transmission delays of sendBytes are timing only
and do not affect the frame sequence, so they are not modelled. -/
def sendBytes (payload : List Nat) : List can_frame :=
  ⟨SEND_CAN_ID, 0x10 :: payload.length :: payload.take 6⟩ ::
    consecutiveFrames 1 (payload.drop 6)

/-- Decoder reassembling the payload from a frame sequence: the first frame
contributes its data past the 2-byte header, every later frame its data past
the 1-byte sequence nibble (spec 8, round-trip scenario). -/
def reassemble (frames : List can_frame) : List Nat :=
  match frames with
  | [] => []
  | f :: fs => f.data.drop 2 ++ (fs.map (fun g => g.data.drop 1)).flatten

/-- Text contains the reserved crash-inducing character. -/
def containsCrashChar (text : List Nat) : Bool :=
  text.any (fun c => c = CRASH_CHAR)

/-- Modelled from the spec: the body of `IC_DISPLAY::getChecksum` is not
among the repository sources.  Spec 4.2 fixes only its interface: a checksum
computed over (length, payload bytes), carried as the final byte of every
package; the exact accumulation rule is an open question of the spec (9), so
it is modelled as the byte-sum of the length and the payload modulo 256. -/
def getChecksum (len : Nat) (payload : List Nat) : Nat :=
  (len + payload.sum) % 256

/-- Modelled from the spec: package layout shared by the encoders (bodies not
among the repository sources).  A package is the package-type byte, the
declared length field (number of content bytes placed), the content bytes,
and the checksum as final byte (spec 4.2 and the invariant of spec 3). -/
def encodePackage (pkgId : Nat) (content : List Nat) : List Nat :=
  pkgId :: content.length :: (content ++ [getChecksum content.length content])

/-- Modelled from the spec: the body of `IC_DISPLAY::setHeader` (Package 29)
is not among the repository sources.  It encodes page code, centering flag
and header text (spec 4.2); encoding fails, and nothing is transmitted, if a
text contains the reserved crash glyph or the payload would exceed 55 bytes
(spec 4.2, error conditions). -/
def setHeader (p : PAGE) (text : List Nat) (should_center : Bool) : Option (List Nat) :=
  if containsCrashChar text then none
  else
    let payload := encodePackage 0x29 (p.code :: (if should_center then 1 else 0) :: text)
    if payload.length ≤ 55 then some payload else none

/-- Modelled from the spec: the body of `IC_DISPLAY::setBody` (package 26) is
not among the repository sources.  It encodes page code, centering flag and
body text (spec 4.2), with the same error conditions as setHeader. -/
def setBody (p : PAGE) (text : List Nat) (should_center : Bool) : Option (List Nat) :=
  if containsCrashChar text then none
  else
    let payload := encodePackage 0x26 (p.code :: (if should_center then 1 else 0) :: text)
    if payload.length ≤ 55 then some payload else none

/-- Modelled from the spec: the body of `IC_DISPLAY::setBodyTel` is not among
the repository sources.  It encodes up to four lines of body text for the
page currently targeted; it is valid only for the Telephone page (header
comment of setBodyTel; spec 4.2), so any other current page is rejected, as
is a crash glyph in any line or a payload over 55 bytes. -/
def setBodyTel (current : PAGE) (l1 l2 l3 l4 : List Nat) : Option (List Nat) :=
  if current = PAGE.TELEPHONE then
    if containsCrashChar l1 || containsCrashChar l2 ||
       containsCrashChar l3 || containsCrashChar l4 then none
    else
      let content := PAGE.TELEPHONE.code ::
        (l1.length :: l1 ++ l2.length :: l2 ++ l3.length :: l3 ++ l4.length :: l4)
      let payload := encodePackage 0x26 content
      if payload.length ≤ 55 then some payload else none
  else none

/-- Modelled from the spec: the body of `IC_DISPLAY::initPage` (Package 24)
is not among the repository sources.  It encodes the target page code, the
centering flag, the two symbol codes above and below the body, and the
header text (spec 4.2), with the same error conditions as setHeader. -/
def initPage (p : PAGE) (header : List Nat) (should_center : Bool)
    (upper_Symbol lower_Symbol : IC_SYMBOL) : Option (List Nat) :=
  if containsCrashChar header then none
  else
    let payload := encodePackage 0x24
      (p.code :: (if should_center then 1 else 0) ::
        upper_Symbol.code :: lower_Symbol.code :: header)
    if payload.length ≤ 55 then some payload else none

/-- Frames put on the bus for an encode result: none transmits zero frames,
an encoded payload is segmented by sendBytes. -/
def framesOf (r : Option (List Nat)) : List can_frame :=
  match r with
  | none => []
  | some payload => sendBytes payload

/-- Modelled from the spec: the body of `IC_DISPLAY::processIcResponse` is
not among the repository sources.  The Display State Tracker (spec 4.4)
recognizes a page-change frame from the cluster: the receive identifier
0x1D0 with a known page code as first data byte; anything else is not a
page-change event. -/
def parsePageChange (r : can_frame) : Option PAGE :=
  if r.id = RECEIVE_CAN_ID then
    match r.data with
    | 0x03 :: _ => some PAGE.AUDIO_PAGE
    | 0x05 :: _ => some PAGE.TELEPHONE
    | 0x00 :: _ => some PAGE.OTHER
    | _ => none
  else none

/-- Modelled from the spec: page tracking of `IC_DISPLAY::processIcResponse`.
A recognized page-change frame overwrites current_page immediately and
unconditionally; unrecognized or malformed frames are ignored with no error
surfaced (spec 4.4). -/
def processIcResponse (current_page : PAGE) (r : can_frame) : PAGE :=
  (parsePageChange r).getD current_page

/-- Concrete text of 7 characters of code 65, each 7 px wide: pixel sum 56. -/
def fitTextAt56 : List Nat := [65, 65, 65, 65, 65, 65, 65]

/-- Concrete text whose pixel sum is 57 (six 7-px glyphs and one 8-px). -/
def fitTextAt57 : List Nat := [65, 65, 65, 65, 65, 65, 103]

/-- Character codes of the text "Now Playing". -/
def nowPlayingText : List Nat := [78, 111, 119, 32, 80, 108, 97, 121, 105, 110, 103]

/-- Encoded header package for page Audio with text "Now Playing" centered. -/
def nowPlayingPayload : List Nat :=
  (setHeader PAGE.AUDIO_PAGE nowPlayingText true).getD []

/-- Invariant of an encoded payload (spec 3): it fits the 55-byte buffer, and
its declared length field (byte 1) equals the number of content bytes placed,
excluding the package-type byte, the length field itself and the checksum. -/
def payloadInvariant (pl : List Nat) : Prop :=
  pl.length ≤ 55 ∧ pl.getD 1 0 = pl.length - 3

/- Helper lemmas about the segmenter. -/

theorem consecutiveFrames_length_aux (n : Nat) :
    ∀ rest : List Nat, rest.length ≤ n → ∀ seq,
      (consecutiveFrames seq rest).length = (rest.length + 6) / 7 := by
  induction n with
  | zero =>
    intro rest h seq
    have hr : rest = [] := List.length_eq_zero.mp (Nat.le_zero.mp h)
    subst hr
    simp [consecutiveFrames]
  | succ n ih =>
    intro rest h seq
    match rest with
    | [] => simp [consecutiveFrames]
    | b :: bs =>
      rw [consecutiveFrames]
      have hlen : ((b :: bs).drop 7).length ≤ n := by
        simp only [List.length_drop, List.length_cons] at h ⊢
        omega
      have ihd := ih ((b :: bs).drop 7) hlen (seq + 1)
      simp only [List.length_cons, List.length_drop] at ihd ⊢
      rw [ihd]
      omega

theorem consecutiveFrames_flatten_aux (n : Nat) :
    ∀ rest : List Nat, rest.length ≤ n → ∀ seq,
      ((consecutiveFrames seq rest).map (fun g => g.data.drop 1)).flatten = rest := by
  induction n with
  | zero =>
    intro rest h seq
    have hr : rest = [] := List.length_eq_zero.mp (Nat.le_zero.mp h)
    subst hr
    simp [consecutiveFrames]
  | succ n ih =>
    intro rest h seq
    match rest with
    | [] => simp [consecutiveFrames]
    | b :: bs =>
      rw [consecutiveFrames]
      have hlen : ((b :: bs).drop 7).length ≤ n := by
        simp only [List.length_drop, List.length_cons] at h ⊢
        omega
      have ihd := ih ((b :: bs).drop 7) hlen (seq + 1)
      simp only [List.drop_succ_cons] at ihd
      simp only [List.map_cons, List.flatten_cons, List.drop_succ_cons,
        List.drop_zero, ihd]
      exact List.take_append_drop 7 (b :: bs)

/-- C1: can_fit_body_text(text) is true iff the sum over all characters c of
widthOf(c)+1 (one-pixel inter-glyph gap) does not exceed the display width of
56 pixels; a text whose pixel sum is exactly 56 is accepted and one whose sum
is 57 is rejected. -/
theorem can_fit_body_text_iff_pixel_sum :
    (∀ text : List Nat,
      can_fit_body_text text = true ↔
        (text.map (fun c => widthOf c + 1)).sum ≤ DISPLAY_WIDTH_PX) ∧
    (textPixelWidth fitTextAt56 = 56 ∧ can_fit_body_text fitTextAt56 = true) ∧
    (textPixelWidth fitTextAt57 = 57 ∧ can_fit_body_text fitTextAt57 = false) := by
  refine ⟨fun text => ?_, by decide, by decide⟩
  simp [can_fit_body_text, textPixelWidth]

/-- C2: for a payload of length L at most 55, sendBytes produces exactly one
frame when L is at most 6 and ceil((L-6)/7)+1 frames otherwise, never more
than 8 frames. -/
theorem sendBytes_frame_count (payload : List Nat) (h : payload.length ≤ 55) :
    ((sendBytes payload).length =
      if payload.length ≤ 6 then 1 else (payload.length - 6 + 6) / 7 + 1) ∧
    (sendBytes payload).length ≤ 8 := by
  have hc := consecutiveFrames_length_aux (payload.drop 6).length
    (payload.drop 6) le_rfl 1
  unfold sendBytes
  simp only [List.length_cons, List.length_drop] at hc ⊢
  rw [hc]
  constructor
  · split
    · omega
    · omega
  · omega

/-- C2 witness: a concrete 20-byte payload segments into 3 frames. -/
theorem sendBytes_frame_count_witness :
    ((sendBytes (List.replicate 20 0)).length =
      if (List.replicate 20 0).length ≤ 6 then 1
      else ((List.replicate 20 0).length - 6 + 6) / 7 + 1) ∧
    (sendBytes (List.replicate 20 0)).length ≤ 8 :=
  sendBytes_frame_count (List.replicate 20 0) (by decide)

/-- C3: for every payload of at most 55 bytes, concatenating the payload
bytes extracted from the frames produced by sendBytes, in frame order,
yields exactly the original payload. -/
theorem sendBytes_roundtrip (payload : List Nat) (h : payload.length ≤ 55) :
    reassemble (sendBytes payload) = payload := by
  have hc := consecutiveFrames_flatten_aux (payload.drop 6).length
    (payload.drop 6) le_rfl 1
  unfold sendBytes reassemble
  simp only [List.drop_succ_cons, List.drop_zero, hc]
  exact List.take_append_drop 6 payload

/-- C3 witness: the encoded header package for page Audio with centered text
"Now Playing", segmented and reassembled, equals the original encoded
payload including its checksum byte. -/
theorem sendBytes_roundtrip_witness :
    setHeader PAGE.AUDIO_PAGE nowPlayingText true = some nowPlayingPayload ∧
    reassemble (sendBytes nowPlayingPayload) = nowPlayingPayload :=
  ⟨by decide, sendBytes_roundtrip nowPlayingPayload (by decide)⟩

/-- C10: any text containing the crash-inducing character (code 126, whose
tabulated width is 99) fails can_fit_body_text, since that character alone
contributes 99+1 = 100 pixels, exceeding the 56-pixel display width. -/
theorem crash_char_never_fits (text : List Nat) (h : CRASH_CHAR ∈ text) :
    can_fit_body_text text = false := by
  have hmem : widthOf CRASH_CHAR + 1 ∈ text.map (fun c => widthOf c + 1) :=
    List.mem_map_of_mem _ h
  have hle : widthOf CRASH_CHAR + 1 ≤ textPixelWidth text :=
    List.single_le_sum (fun x _ => Nat.zero_le x) _ hmem
  have hw : widthOf CRASH_CHAR = 99 := by decide
  simp only [can_fit_body_text, DISPLAY_WIDTH_PX, decide_eq_false_iff_not,
    not_le]
  omega

/-- C10 witness: the single-character text [126] fails the fit check. -/
theorem crash_char_never_fits_witness :
    can_fit_body_text [126] = false :=
  crash_char_never_fits [126] (by decide)

/- Helper lemma: any encoder result guarded by the 55-byte check satisfies
the payload invariant. -/

theorem encodeGuard_invariant (pkgId : Nat) (content pl : List Nat)
    (h : (if (encodePackage pkgId content).length ≤ 55
          then some (encodePackage pkgId content) else none) = some pl) :
    payloadInvariant pl := by
  split at h
  · cases h
    constructor
    · assumption
    · simp [encodePackage]
  · exact Option.noConfusion h

/-- C4: if a text argument contains the reserved crash-inducing character
(width-table entry 99), each encode operation (setHeader, setBody,
setBodyTel, initPage) rejects the call before encoding and zero frames are
transmitted, so the reserved glyph code is never forwarded to the bus. -/
theorem crash_char_rejected (p cur : PAGE) (text l1 l2 l3 l4 : List Nat)
    (should_center : Bool) (us ls : IC_SYMBOL) :
    (containsCrashChar text = true →
      setHeader p text should_center = none ∧
      framesOf (setHeader p text should_center) = [] ∧
      setBody p text should_center = none ∧
      framesOf (setBody p text should_center) = [] ∧
      initPage p text should_center us ls = none ∧
      framesOf (initPage p text should_center us ls) = []) ∧
    ((containsCrashChar l1 || containsCrashChar l2 ||
      containsCrashChar l3 || containsCrashChar l4) = true →
      setBodyTel cur l1 l2 l3 l4 = none ∧
      framesOf (setBodyTel cur l1 l2 l3 l4) = []) := by
  constructor
  · intro h
    simp [setHeader, setBody, initPage, framesOf, h]
  · intro h
    by_cases hcur : cur = PAGE.TELEPHONE
    · subst hcur
      simp [setBodyTel, framesOf, h]
    · simp [setBodyTel, framesOf, hcur]

/-- C4 witness: a text consisting of the single byte 126 is rejected by
setHeader and by setBodyTel, with zero frames transmitted. -/
theorem crash_char_rejected_witness :
    setHeader PAGE.AUDIO_PAGE [126] true = none ∧
    framesOf (setHeader PAGE.AUDIO_PAGE [126] true) = [] ∧
    setBodyTel PAGE.TELEPHONE [] [126] [] [] = none ∧
    framesOf (setBodyTel PAGE.TELEPHONE [] [126] [] []) = [] := by
  have h := crash_char_rejected PAGE.AUDIO_PAGE PAGE.TELEPHONE [126] [] [126] [] []
    true IC_SYMBOL.NONE IC_SYMBOL.NONE
  have h1 := h.1 (by decide)
  have h2 := h.2 (by decide)
  exact ⟨h1.1, h1.2.1, h2.1, h2.2⟩

/-- C5: every encode operation that accepts its input produces a payload of
at most 55 bytes whose declared length field equals the number of content
bytes placed, excluding framing and checksum bytes. -/
theorem encode_buffer_invariant (p cur : PAGE) (text l1 l2 l3 l4 header : List Nat)
    (should_center : Bool) (us ls : IC_SYMBOL) :
    (∀ pl, setHeader p text should_center = some pl → payloadInvariant pl) ∧
    (∀ pl, setBody p text should_center = some pl → payloadInvariant pl) ∧
    (∀ pl, setBodyTel cur l1 l2 l3 l4 = some pl → payloadInvariant pl) ∧
    (∀ pl, initPage p header should_center us ls = some pl → payloadInvariant pl) := by
  refine ⟨fun pl h => ?_, fun pl h => ?_, fun pl h => ?_, fun pl h => ?_⟩
  · unfold setHeader at h
    split at h
    · exact Option.noConfusion h
    · exact encodeGuard_invariant _ _ pl h
  · unfold setBody at h
    split at h
    · exact Option.noConfusion h
    · exact encodeGuard_invariant _ _ pl h
  · unfold setBodyTel at h
    split at h
    · split at h
      · exact Option.noConfusion h
      · exact encodeGuard_invariant _ _ pl h
    · exact Option.noConfusion h
  · unfold initPage at h
    split at h
    · exact Option.noConfusion h
    · exact encodeGuard_invariant _ _ pl h

/-- C5 witness: the concrete header package for text [65] on page Audio
satisfies the payload invariant. -/
theorem encode_buffer_invariant_witness :
    payloadInvariant [0x29, 3, 3, 1, 65, 72] :=
  (encode_buffer_invariant PAGE.AUDIO_PAGE PAGE.TELEPHONE [65] [] [] [] [] []
    true IC_SYMBOL.NONE IC_SYMBOL.NONE).1 [0x29, 3, 3, 1, 65, 72] (by decide)

/-- C6: if current_page is Audio and processIcResponse parses an incoming
frame declaring the Telephone page active, current_page becomes TELEPHONE
immediately and unconditionally, and a subsequent encode call that defaults
to the current page targets Telephone. -/
theorem page_change_to_telephone (r : can_frame)
    (h : parsePageChange r = some PAGE.TELEPHONE) :
    processIcResponse PAGE.AUDIO_PAGE r = PAGE.TELEPHONE ∧
    ∀ l1 l2 l3 l4 : List Nat,
      setBodyTel (processIcResponse PAGE.AUDIO_PAGE r) l1 l2 l3 l4 =
        setBodyTel PAGE.TELEPHONE l1 l2 l3 l4 := by
  have h1 : processIcResponse PAGE.AUDIO_PAGE r = PAGE.TELEPHONE := by
    simp [processIcResponse, h]
  exact ⟨h1, fun l1 l2 l3 l4 => by rw [h1]⟩

/-- C6 witness: a frame with receive identifier 0x1D0 and first data byte
0x05 switches the current page from Audio to Telephone. -/
theorem page_change_to_telephone_witness :
    processIcResponse PAGE.AUDIO_PAGE ⟨0x1D0, [0x05, 0, 0, 0, 0, 0, 0, 0]⟩ =
      PAGE.TELEPHONE :=
  (page_change_to_telephone ⟨0x1D0, [0x05, 0, 0, 0, 0, 0, 0, 0]⟩ (by decide)).1

/-- C7: the multi-line body package is valid only for the Telephone page:
targeted at Audio or Other it is rejected and nothing is transmitted. -/
theorem setBodyTel_requires_telephone :
    ∀ l1 l2 l3 l4 : List Nat,
      setBodyTel PAGE.AUDIO_PAGE l1 l2 l3 l4 = none ∧
      framesOf (setBodyTel PAGE.AUDIO_PAGE l1 l2 l3 l4) = [] ∧
      setBodyTel PAGE.OTHER l1 l2 l3 l4 = none ∧
      framesOf (setBodyTel PAGE.OTHER l1 l2 l3 l4) = [] := by
  intro l1 l2 l3 l4
  refine ⟨?_, ?_, ?_, ?_⟩ <;> simp [setBodyTel, framesOf]

/-- C8: an incoming frame not recognized as a page-change event leaves
current_page unchanged; processIcResponse is total, so no error is surfaced
to the caller. -/
theorem unrecognized_frame_noop (current_page : PAGE) (r : can_frame)
    (h : parsePageChange r = none) :
    processIcResponse current_page r = current_page := by
  simp [processIcResponse, h]

/-- C8 witness: a frame with a foreign identifier leaves the Audio page
unchanged. -/
theorem unrecognized_frame_noop_witness :
    processIcResponse PAGE.AUDIO_PAGE ⟨0x1A4, [1, 2, 3]⟩ = PAGE.AUDIO_PAGE :=
  unrecognized_frame_noop PAGE.AUDIO_PAGE ⟨0x1A4, [1, 2, 3]⟩ (by decide)

set_option maxRecDepth 4096 in
/-- C9: the glyph-width table has one entry per character code 0-255, every
entry lies in 0..11 except exactly one sentinel entry of value 99, and every
character code outside the printable set (no glyph recorded), other than the
reserved sentinel code itself, maps to width 0. -/
theorem char_widths_table_props :
    CHAR_WIDTHS.length = 256 ∧
    (∀ w ∈ CHAR_WIDTHS, w ≤ 11 ∨ w = 99) ∧
    CHAR_WIDTHS.count 99 = 1 ∧
    (∀ c : Nat, c ≠ CRASH_CHAR → isPrintable c = false → widthOf c = 0) := by
  refine ⟨by decide, by decide, by decide, ?_⟩
  intro c hne h
  by_cases hc : c < 256
  · have hb : ∀ c' : Fin 256, c'.val ≠ 126 → isPrintable c'.val = false →
        widthOf c'.val = 0 := by decide
    exact hb ⟨c, hc⟩ hne h
  · have hlen : CHAR_WIDTHS.length ≤ c := by
      have h256 : CHAR_WIDTHS.length = 256 := by decide
      omega
    show CHAR_WIDTHS.getD c 0 = 0
    exact List.getD_eq_default _ _ hlen

/-- C9 witness: entry 7 of the table is within range, and the non-printable
code 200 has width 0. -/
theorem char_widths_table_props_witness :
    ((7 : Nat) ≤ 11 ∨ (7 : Nat) = 99) ∧ widthOf 200 = 0 :=
  ⟨char_widths_table_props.2.1 7 (by decide),
   char_widths_table_props.2.2.2 200 (by decide) (by decide)⟩
